import Mathlib

/-!
Shallow embedding of `src/flet_carousel_slider/flet_carousel_slider.py`.

The file models, faithfully to the Python source:
* the Python string builtins the module uses (`str.split(":")`, `int(s)`,
  `float(s)`, f-string decimal rendering of integers, `str.lower()`),
* the host framework (flet `Control`) attribute store: `_set_attr` stores the
  Python value under the lower-cased key (a `None` value is stored as the empty
  string once the key exists), and `_get_attr` converts string-typed stored
  values according to `data_type` while returning non-string stored values
  unchanged (this mirrors `flet.core.control.Control._get_attr` /
  `_set_attr_internal`),
* the two event classes (`CarouselChangeEvent`, `CarouselScrolledEvent`):
  only their parsing of `e.data` is modelled; the copied `target`/`name`/
  `control`/`page` fields are opaque and irrelevant to the claims,
* the `Carousel` control: its constructor, every property getter/setter, the
  command counter and the four navigation methods, and the replace-on-set
  event-handler registration (flet `_add_event_handler` keyed by event name).

Python exceptions are modelled by `Option`/`GetResult.raise`: a function
returns `none` (or `.raise`) exactly when the Python code would raise.
Python `float` values are modelled as exact rationals; no claim settled here
depends on binary floating-point rounding.
-/

namespace FletCarousel

/-- Python `str.lower()` restricted to ASCII letters; all attribute keys in the
source are ASCII, so this is faithful on every key that occurs. -/
def lowerChar (c : Char) : Char :=
  if 'A' ≤ c ∧ c ≤ 'Z' then Char.ofNat (c.toNat + 32) else c

/-- `name.lower()` as applied to attribute-store keys by flet `Control`. -/
def lowerKey (s : String) : String := String.mk (s.data.map lowerChar)

/-- `'0' ≤ c ≤ '9'`, stated on code points. -/
def isDigitChar (c : Char) : Bool := decide (48 ≤ c.toNat ∧ c.toNat ≤ 57)

/-- ASCII whitespace stripped by Python `int()` / `float()` (space, tab, LF,
CR, VT, FF), stated on code points. -/
def isSpaceChar (c : Char) : Bool :=
  decide (c.toNat = 32 ∨ c.toNat = 9 ∨ c.toNat = 10 ∨ c.toNat = 13 ∨
    c.toNat = 11 ∨ c.toNat = 12)

def stripSpaces (l : List Char) : List Char :=
  ((l.dropWhile isSpaceChar).reverse.dropWhile isSpaceChar).reverse

/-- Decimal value of a digit string (most significant first). -/
def readNatDigits (l : List Char) : Nat :=
  l.foldl (fun a c => 10 * a + (c.toNat - 48)) 0

/-- Prepend a character to the first chunk of a split result. -/
def consHead (c : Char) : List (List Char) → List (List Char)
  | [] => [[c]]
  | h :: t => (c :: h) :: t

/-- Python `str.split(sep)` for a one-character separator: `"".split(":") = [""]`,
`"3".split(":") = ["3"]`, `"3:timed".split(":") = ["3","timed"]`. -/
def splitOnChar (sep : Char) : List Char → List (List Char)
  | [] => [[]]
  | c :: cs =>
    if c = sep then [] :: splitOnChar sep cs else consHead c (splitOnChar sep cs)

/-- Decimal digits of `n`, most significant first (`[]` for `n = 0`); the fuel
argument makes the recursion structural, any fuel `≥ n` is exact. -/
def decDigitsAux : Nat → Nat → List Char
  | 0, _ => []
  | fuel + 1, n =>
    if n = 0 then []
    else decDigitsAux fuel (n / 10) ++ [Char.ofNat (48 + n % 10)]

/-- Python `str(n)` / f-string rendering of a non-negative integer. -/
def pyNatStr (n : Nat) : String :=
  if n = 0 then "0" else String.mk (decDigitsAux n n)

/-- Python `str(i)` / f-string rendering of an integer. -/
def pyIntStr (i : Int) : String :=
  if i < 0 then "-" ++ pyNatStr i.natAbs else pyNatStr i.toNat

/-- Python `int(s)` on a string: strips ASCII whitespace, then an optional sign
followed by a non-empty digit run; `none` models `ValueError`. (Python also
accepts underscores between digits; no payload considered here contains one.) -/
def pyInt? (s : String) : Option Int :=
  match stripSpaces s.data with
  | [] => Option.none
  | c :: cs =>
    if c = '+' then
      if cs ≠ [] ∧ cs.all isDigitChar then some (readNatDigits cs) else Option.none
    else if c = '-' then
      if cs ≠ [] ∧ cs.all isDigitChar then some (-(readNatDigits cs : Int))
      else Option.none
    else
      if (c :: cs).all isDigitChar then some (readNatDigits (c :: cs))
      else Option.none

/-- Decimal value of `<int digits> [. <frac digits>]` with at least one digit;
helper for `pyFloat?`. -/
def pyFloatCore? (l : List Char) : Option ℚ :=
  match splitOnChar '.' l with
  | [ip] =>
    if ip ≠ [] ∧ ip.all isDigitChar then some (readNatDigits ip) else Option.none
  | [ip, fp] =>
    if (ip ≠ [] ∨ fp ≠ []) ∧ ip.all isDigitChar ∧ fp.all isDigitChar then
      some ((readNatDigits ip : ℚ) + (readNatDigits fp : ℚ) / (10 ^ fp.length : ℚ))
    else Option.none
  | _ => Option.none

/-- Python `float(s)` on a string: strips ASCII whitespace, optional sign,
decimal digits with an optional fractional part; `none` models `ValueError`.
(Exponents and `inf`/`nan` spellings are accepted by Python but are not
exercised by any payload considered here.) -/
def pyFloat? (s : String) : Option ℚ :=
  match stripSpaces s.data with
  | [] => Option.none
  | c :: cs =>
    if c = '+' then pyFloatCore? cs
    else if c = '-' then (pyFloatCore? cs).map (fun q => -q)
    else pyFloatCore? (c :: cs)

/-- A Python value as stored in the flet attribute store. -/
inductive PyVal where
  | none
  | bool (b : Bool)
  | int (n : Int)
  | float (q : ℚ)
  | str (s : String)
deriving DecidableEq

/-- flet `Control._set_attr` / `_set_attr_internal`: the key is lower-cased;
setting `None` on an absent key is a no-op, setting `None` on a present key
stores the empty string; any other value is stored as-is. -/
def setAttr (st : String → Option PyVal) (name : String) (v : PyVal) :
    String → Option PyVal :=
  let key := lowerKey name
  match v with
  | PyVal.none =>
    match st key with
    | Option.none => st
    | some _ => fun k => if k = key then some (PyVal.str "") else st k
  | v => fun k => if k = key then some v else st k

/-- Result of flet `Control._get_attr`: either a returned Python value or a
raised exception (`int()`/`float()` conversion failure). -/
inductive GetResult where
  | ok (v : PyVal)
  | raise
deriving DecidableEq

/-- flet `Control._get_attr`: absent key returns `def_value`; a string-typed
stored value is converted according to `data_type` (`"bool"`: compares its
lower-casing with `"true"`; `"int"`/`"float"`: Python `int()`/`float()`, which
may raise); any non-string stored value is returned unchanged. -/
def getAttr (st : String → Option PyVal) (name : String) (dataType : String)
    (defVal : PyVal) : GetResult :=
  match st (lowerKey name) with
  | Option.none => GetResult.ok defVal
  | some sv =>
    if dataType = "bool" then
      match sv with
      | PyVal.str s => GetResult.ok (PyVal.bool (lowerKey s = "true"))
      | v => GetResult.ok v
    else if dataType = "float" then
      match sv with
      | PyVal.str s =>
        match pyFloat? s with
        | some q => GetResult.ok (PyVal.float q)
        | Option.none => GetResult.raise
      | v => GetResult.ok v
    else if dataType = "int" then
      match sv with
      | PyVal.str s =>
        match pyInt? s with
        | some n => GetResult.ok (PyVal.int n)
        | Option.none => GetResult.raise
      | v => GetResult.ok v
    else GetResult.ok sv

/-- `ScrollDirection` enum of the source. -/
inductive ScrollDirection where
  | HORIZONTAL
  | VERTICAL
deriving DecidableEq

def ScrollDirection.value : ScrollDirection → String
  | .HORIZONTAL => "horizontal"
  | .VERTICAL => "vertical"

/-- `AnimateToCurve` enum of the source. -/
inductive AnimateToCurve where
  | LINEAR
  | EASE_IN
  | EASE_OUT
  | EASE_IN_OUT
  | BOUNCE_IN
  | BOUNCE_OUT
  | ELASTIC_IN
  | ELASTIC_OUT
  | DECELERATE
  | FAST_OUT_SLOW_IN
deriving DecidableEq

def AnimateToCurve.value : AnimateToCurve → String
  | .LINEAR => "linear"
  | .EASE_IN => "easeIn"
  | .EASE_OUT => "easeOut"
  | .EASE_IN_OUT => "easeInOut"
  | .BOUNCE_IN => "bounceIn"
  | .BOUNCE_OUT => "bounceOut"
  | .ELASTIC_IN => "elasticIn"
  | .ELASTIC_OUT => "elasticOut"
  | .DECELERATE => "decelerate"
  | .FAST_OUT_SLOW_IN => "fastOutSlowIn"

/-- `EnlargeStrategy` enum of the source. -/
inductive EnlargeStrategy where
  | SCALE
  | HEIGHT
  | ZOOM
deriving DecidableEq

def EnlargeStrategy.value : EnlargeStrategy → String
  | .SCALE => "scale"
  | .HEIGHT => "height"
  | .ZOOM => "zoom"

/-- `ClipBehavior` enum of the source. -/
inductive ClipBehavior where
  | NONE
  | HARD_EDGE
  | ANTI_ALIAS
  | ANTI_ALIAS_WITH_SAVE_LAYER
deriving DecidableEq

def ClipBehavior.value : ClipBehavior → String
  | .NONE => "none"
  | .HARD_EDGE => "hardEdge"
  | .ANTI_ALIAS => "antiAlias"
  | .ANTI_ALIAS_WITH_SAVE_LAYER => "antiAliasWithSaveLayer"

/-- `CarouselPageChangedReason` enum of the source. -/
inductive CarouselPageChangedReason where
  | TIMED
  | MANUAL
  | CONTROLLER
deriving DecidableEq

/-- Python `CarouselPageChangedReason(s)` enum lookup by value; `none` models
the `ValueError` raised for an unrecognized token. -/
def CarouselPageChangedReason.fromWire? (s : String) :
    Option CarouselPageChangedReason :=
  if s = "timed" then some CarouselPageChangedReason.TIMED
  else if s = "manual" then some CarouselPageChangedReason.MANUAL
  else if s = "controller" then some CarouselPageChangedReason.CONTROLLER
  else Option.none

/-- The typed fields `CarouselChangeEvent.__init__` computes from `e.data`. -/
structure ChangeParsed where
  index : Int
  reason : CarouselPageChangedReason
deriving DecidableEq

/-- `e.data or "0:manual"`: Python `or` replaces a `None` or empty payload. -/
def changeRaw (data : Option String) : String :=
  match data with
  | Option.none => "0:manual"
  | some s => if s = "" then "0:manual" else s

/-- `CarouselChangeEvent.__init__` parsing of `e.data`:
`parts = (e.data or "0:manual").split(":")`; `index = int(parts[0])` (may raise
`ValueError`); `reason = CarouselPageChangedReason(parts[1])` (may raise
`IndexError` when there is no second segment) with only `ValueError` caught and
mapped to `MANUAL`. `none` models a raised exception. -/
def carouselChangeParse (data : Option String) : Option ChangeParsed :=
  match splitOnChar ':' (changeRaw data).data with
  | [] => Option.none
  | p0 :: rest =>
    match pyInt? (String.mk p0) with
    | Option.none => Option.none
    | some idx =>
      match rest with
      | [] => Option.none
      | p1 :: _ =>
        some ⟨idx, (CarouselPageChangedReason.fromWire? (String.mk p1)).getD
          CarouselPageChangedReason.MANUAL⟩

/-- `CarouselScrolledEvent.__init__`: `value = float(e.data or 0.0)`; a `None`
or empty payload yields the Python float `0.0`, otherwise the payload string is
parsed by `float()`. `none` models a raised `ValueError`. -/
def carouselScrolledValue (data : Option String) : Option ℚ :=
  match data with
  | Option.none => some 0
  | some s => if s = "" then some 0 else pyFloat? s

/-- State of one `Carousel` control instance. Field ↔ source mapping:
`attrs` is the flet `Control` attribute store; `cmdCounter` is the name-mangled
`self.__cmd_counter`; `controlsField` is `self.__controls` (`Option` captures
that Python could hold `None`, though the setter never stores it);
`onChangeField` / `onScrolledField` are `self.__on_change` / `self.__on_scrolled`
(handlers are opaque, identified by a `Nat` id); `eventHandlers` is the flet
`_add_event_handler` registry keyed by event name, holding the id of the user
handler the registered `_wrap` closure invokes (`none` when `None` was
registered); the four `...Field` enum fields are the shadow instance variables
kept by the enum-typed property setters. `α` is the opaque type of child
controls. -/
structure Carousel (α : Type) where
  attrs : String → Option PyVal
  cmdCounter : Nat
  controlsField : Option (List α)
  onChangeField : Option Nat
  onScrolledField : Option Nat
  eventHandlers : String → Option Nat
  autoPlayCurveField : AnimateToCurve
  enlargeStrategyField : EnlargeStrategy
  scrollDirectionField : ScrollDirection
  clipBehaviorField : ClipBehavior

namespace Carousel

variable {α : Type}

/-- `self._set_attr(name, value)`. -/
def set_attr (c : Carousel α) (name : String) (v : PyVal) : Carousel α :=
  { c with attrs := setAttr c.attrs name v }

/-- `controls` property setter: `self.__controls = value if value is not None
else []`. -/
def set_controls (c : Carousel α) (value : Option (List α)) : Carousel α :=
  { c with controlsField := some (value.getD []) }

/-- `controls` property getter: returns `self.__controls`. -/
def controls (c : Carousel α) : Option (List α) := c.controlsField

/-- `_get_children`: returns `self.__controls`. -/
def get_children (c : Carousel α) : Option (List α) := c.controlsField

/-- `height` setter. -/
def set_height (c : Carousel α) (v : PyVal) : Carousel α := c.set_attr "height" v

/-- `height` getter. -/
def height (c : Carousel α) : GetResult :=
  getAttr c.attrs "height" "float" PyVal.none

/-- `aspect_ratio` setter. -/
def set_aspect_ratio (c : Carousel α) (v : ℚ) : Carousel α :=
  c.set_attr "aspectRatio" (PyVal.float v)

/-- `aspect_ratio` getter; the Python default `16/9` is the exact rational in
this model. -/
def aspect_ratio (c : Carousel α) : GetResult :=
  getAttr c.attrs "aspectRatio" "float" (PyVal.float (16 / 9))

/-- `viewport_fraction` setter. -/
def set_viewport_fraction (c : Carousel α) (v : ℚ) : Carousel α :=
  c.set_attr "viewportFraction" (PyVal.float v)

/-- `viewport_fraction` getter. -/
def viewport_fraction (c : Carousel α) : GetResult :=
  getAttr c.attrs "viewportFraction" "float" (PyVal.float (8 / 10))

/-- `initial_page` setter. -/
def set_initial_page (c : Carousel α) (v : Int) : Carousel α :=
  c.set_attr "initialPage" (PyVal.int v)

/-- `initial_page` getter. -/
def initial_page (c : Carousel α) : GetResult :=
  getAttr c.attrs "initialPage" "int" (PyVal.int 0)

/-- `enable_infinite_scroll` setter. -/
def set_enable_infinite_scroll (c : Carousel α) (v : Bool) : Carousel α :=
  c.set_attr "enableInfiniteScroll" (PyVal.bool v)

/-- `enable_infinite_scroll` getter. -/
def enable_infinite_scroll (c : Carousel α) : GetResult :=
  getAttr c.attrs "enableInfiniteScroll" "bool" (PyVal.bool true)

/-- `disablegesture` setter. -/
def set_disablegesture (c : Carousel α) (v : Bool) : Carousel α :=
  c.set_attr "disableGesture" (PyVal.bool v)

/-- `disablegesture` getter. -/
def disablegesture (c : Carousel α) : GetResult :=
  getAttr c.attrs "disableGesture" "bool" (PyVal.bool false)

/-- `enable_indicator` setter. -/
def set_enable_indicator (c : Carousel α) (v : Bool) : Carousel α :=
  c.set_attr "enableindicator" (PyVal.bool v)

/-- `enable_indicator` getter. -/
def enable_indicator (c : Carousel α) : GetResult :=
  getAttr c.attrs "enableindicator" "bool" (PyVal.bool true)

/-- `indicatorwidth` setter. -/
def set_indicatorwidth (c : Carousel α) (v : PyVal) : Carousel α :=
  c.set_attr "indicatorwidth" v

/-- `indicatorwidth` getter. -/
def indicatorwidth (c : Carousel α) : GetResult :=
  getAttr c.attrs "indicatorwidth" "int" PyVal.none

/-- `indicator_inactive_color` setter (colors are `str` or an opaque enum; the
string case is the one the claims exercise). -/
def set_indicator_inactive_color (c : Carousel α) (v : PyVal) : Carousel α :=
  c.set_attr "indicatorInactiveColor" v

/-- `indicator_inactive_color` getter — note the source passes
`data_type="int"` here. -/
def indicator_inactive_color (c : Carousel α) : GetResult :=
  getAttr c.attrs "indicatorInactiveColor" "int" PyVal.none

/-- `indicator_active_color` setter. -/
def set_indicator_active_color (c : Carousel α) (v : PyVal) : Carousel α :=
  c.set_attr "indicatorActiveColor" v

/-- `indicator_active_color` getter — note the source passes
`data_type="bool"` here. -/
def indicator_active_color (c : Carousel α) : GetResult :=
  getAttr c.attrs "indicatorActiveColor" "bool" PyVal.none

/-- `build_on_demand` setter. -/
def set_build_on_demand (c : Carousel α) (v : Bool) : Carousel α :=
  c.set_attr "build_on_demand" (PyVal.bool v)

/-- `build_on_demand` getter. -/
def build_on_demand (c : Carousel α) : GetResult :=
  getAttr c.attrs "build_on_demand" "bool" (PyVal.bool false)

/-- `animate_to_closest` setter. -/
def set_animate_to_closest (c : Carousel α) (v : Bool) : Carousel α :=
  c.set_attr "animateToClosest" (PyVal.bool v)

/-- `animate_to_closest` getter. -/
def animate_to_closest (c : Carousel α) : GetResult :=
  getAttr c.attrs "animateToClosest" "bool" (PyVal.bool true)

/-- `reverse` setter. -/
def set_reverse (c : Carousel α) (v : Bool) : Carousel α :=
  c.set_attr "reverse" (PyVal.bool v)

/-- `reverse` getter. -/
def reverse (c : Carousel α) : GetResult :=
  getAttr c.attrs "reverse" "bool" (PyVal.bool false)

/-- `auto_play` setter. -/
def set_auto_play (c : Carousel α) (v : Bool) : Carousel α :=
  c.set_attr "autoPlay" (PyVal.bool v)

/-- `auto_play` getter. -/
def auto_play (c : Carousel α) : GetResult :=
  getAttr c.attrs "autoPlay" "bool" (PyVal.bool false)

/-- `auto_play_interval` setter. -/
def set_auto_play_interval (c : Carousel α) (v : Int) : Carousel α :=
  c.set_attr "autoPlayInterval" (PyVal.int v)

/-- `auto_play_interval` getter. -/
def auto_play_interval (c : Carousel α) : GetResult :=
  getAttr c.attrs "autoPlayInterval" "int" (PyVal.int 4000)

/-- `auto_play_animation_duration` setter. -/
def set_auto_play_animation_duration (c : Carousel α) (v : Int) : Carousel α :=
  c.set_attr "autoPlayAnimationDuration" (PyVal.int v)

/-- `auto_play_animation_duration` getter. -/
def auto_play_animation_duration (c : Carousel α) : GetResult :=
  getAttr c.attrs "autoPlayAnimationDuration" "int" (PyVal.int 800)

/-- `auto_play_curve` setter: keeps the enum in the shadow field and writes its
wire string to the attribute store. -/
def set_auto_play_curve (c : Carousel α) (v : AnimateToCurve) : Carousel α :=
  { c.set_attr "autoPlayCurve" (PyVal.str v.value) with autoPlayCurveField := v }

/-- `auto_play_curve` getter: returns the shadow field. -/
def auto_play_curve (c : Carousel α) : AnimateToCurve := c.autoPlayCurveField

/-- `enlarge_center_page` setter. -/
def set_enlarge_center_page (c : Carousel α) (v : Bool) : Carousel α :=
  c.set_attr "enlargeCenterPage" (PyVal.bool v)

/-- `enlarge_center_page` getter. -/
def enlarge_center_page (c : Carousel α) : GetResult :=
  getAttr c.attrs "enlargeCenterPage" "bool" (PyVal.bool false)

/-- `enlarge_strategy` setter. -/
def set_enlarge_strategy (c : Carousel α) (v : EnlargeStrategy) : Carousel α :=
  { c.set_attr "enlargeStrategy" (PyVal.str v.value) with enlargeStrategyField := v }

/-- `enlarge_strategy` getter: returns the shadow field. -/
def enlarge_strategy (c : Carousel α) : EnlargeStrategy := c.enlargeStrategyField

/-- `enlarge_factor` setter. -/
def set_enlarge_factor (c : Carousel α) (v : ℚ) : Carousel α :=
  c.set_attr "enlargeFactor" (PyVal.float v)

/-- `enlarge_factor` getter. -/
def enlarge_factor (c : Carousel α) : GetResult :=
  getAttr c.attrs "enlargeFactor" "float" (PyVal.float (3 / 10))

/-- `page_snapping` setter. -/
def set_page_snapping (c : Carousel α) (v : Bool) : Carousel α :=
  c.set_attr "pageSnapping" (PyVal.bool v)

/-- `page_snapping` getter. -/
def page_snapping (c : Carousel α) : GetResult :=
  getAttr c.attrs "pageSnapping" "bool" (PyVal.bool true)

/-- `scroll_direction` setter. -/
def set_scroll_direction (c : Carousel α) (v : ScrollDirection) : Carousel α :=
  { c.set_attr "scrollDirection" (PyVal.str v.value) with scrollDirectionField := v }

/-- `scroll_direction` getter: returns the shadow field. -/
def scroll_direction (c : Carousel α) : ScrollDirection := c.scrollDirectionField

/-- `pause_auto_play_on_touch` setter. -/
def set_pause_auto_play_on_touch (c : Carousel α) (v : Bool) : Carousel α :=
  c.set_attr "pauseAutoPlayOnTouch" (PyVal.bool v)

/-- `pause_auto_play_on_touch` getter. -/
def pause_auto_play_on_touch (c : Carousel α) : GetResult :=
  getAttr c.attrs "pauseAutoPlayOnTouch" "bool" (PyVal.bool true)

/-- `pause_auto_play_on_manual_navigate` setter. -/
def set_pause_auto_play_on_manual_navigate (c : Carousel α) (v : Bool) :
    Carousel α :=
  c.set_attr "pauseAutoPlayOnManualNavigate" (PyVal.bool v)

/-- `pause_auto_play_on_manual_navigate` getter. -/
def pause_auto_play_on_manual_navigate (c : Carousel α) : GetResult :=
  getAttr c.attrs "pauseAutoPlayOnManualNavigate" "bool" (PyVal.bool true)

/-- `pause_auto_play_in_finite_scroll` setter. -/
def set_pause_auto_play_in_finite_scroll (c : Carousel α) (v : Bool) :
    Carousel α :=
  c.set_attr "pauseAutoPlayInFiniteScroll" (PyVal.bool v)

/-- `pause_auto_play_in_finite_scroll` getter. -/
def pause_auto_play_in_finite_scroll (c : Carousel α) : GetResult :=
  getAttr c.attrs "pauseAutoPlayInFiniteScroll" "bool" (PyVal.bool false)

/-- `disable_center` setter. -/
def set_disable_center (c : Carousel α) (v : Bool) : Carousel α :=
  c.set_attr "disableCenter" (PyVal.bool v)

/-- `disable_center` getter. -/
def disable_center (c : Carousel α) : GetResult :=
  getAttr c.attrs "disableCenter" "bool" (PyVal.bool false)

/-- `pad_ends` setter. -/
def set_pad_ends (c : Carousel α) (v : Bool) : Carousel α :=
  c.set_attr "padEnds" (PyVal.bool v)

/-- `pad_ends` getter. -/
def pad_ends (c : Carousel α) : GetResult :=
  getAttr c.attrs "padEnds" "bool" (PyVal.bool true)

/-- `clip_behavior` setter. -/
def set_clip_behavior (c : Carousel α) (v : ClipBehavior) : Carousel α :=
  { c.set_attr "clipBehavior" (PyVal.str v.value) with clipBehaviorField := v }

/-- `clip_behavior` getter: returns the shadow field. -/
def clip_behavior (c : Carousel α) : ClipBehavior := c.clipBehaviorField

/-- `on_change` setter: stores the handler and registers, under event name
`"change"`, the `_wrap` closure when the handler is not `None`, else `None`
(flet `_add_event_handler` stores the value under the event-name key, replacing
any previous entry). The registry entry records the id of the user handler the
closure invokes. -/
def set_on_change (c : Carousel α) (handler : Option Nat) : Carousel α :=
  { c with
    onChangeField := handler,
    eventHandlers := fun k => if k = "change" then handler else c.eventHandlers k }

/-- `on_change` getter: returns `self.__on_change`. -/
def on_change (c : Carousel α) : Option Nat := c.onChangeField

/-- `on_scrolled` setter; registers under event name `"scrolled"`. -/
def set_on_scrolled (c : Carousel α) (handler : Option Nat) : Carousel α :=
  { c with
    onScrolledField := handler,
    eventHandlers := fun k => if k = "scrolled" then handler else c.eventHandlers k }

/-- `on_scrolled` getter: returns `self.__on_scrolled`. -/
def on_scrolled (c : Carousel α) : Option Nat := c.onScrolledField

/-- The user handler a delivered `"change"` event reaches (`none`: no handler
is invoked, either because `None` is registered or nothing ever was). -/
def invokedChangeHandler (c : Carousel α) : Option Nat := c.eventHandlers "change"

/-- The user handler a delivered `"scrolled"` event reaches. -/
def invokedScrolledHandler (c : Carousel α) : Option Nat :=
  c.eventHandlers "scrolled"

/-- A pre-`__init__` instance: empty attribute store, no fields assigned yet
(the enum shadow fields carry arbitrary placeholders; `init` always overwrites
them). -/
def blank (α : Type) : Carousel α where
  attrs := fun _ => Option.none
  cmdCounter := 0
  controlsField := Option.none
  onChangeField := Option.none
  onScrolledField := Option.none
  eventHandlers := fun _ => Option.none
  autoPlayCurveField := AnimateToCurve.FAST_OUT_SLOW_IN
  enlargeStrategyField := EnlargeStrategy.SCALE
  scrollDirectionField := ScrollDirection.HORIZONTAL
  clipBehaviorField := ClipBehavior.HARD_EDGE

/-- `Carousel.__init__`: runs every property setter in source order with the
given arguments (defaults as in the source), then sets `self.__cmd_counter = 0`.
`controls` is `Option` because Python would accept `None` despite the
`List[Control]` annotation. -/
def init (controls : Option (List α))
    (height : PyVal := PyVal.none)
    (aspect_ratio : ℚ := 16 / 9)
    (viewport_fraction : ℚ := 8 / 10)
    (initial_page : Int := 0)
    (disablegesture : Bool := false)
    (enable_indicator : Bool := true)
    (indicatorwidth : PyVal := PyVal.none)
    (indicator_inactive_color : PyVal := PyVal.none)
    (indicator_active_color : PyVal := PyVal.none)
    (build_on_demand : Bool := false)
    (enable_infinite_scroll : Bool := true)
    (animate_to_closest : Bool := true)
    (reverse : Bool := false)
    (auto_play : Bool := false)
    (auto_play_interval : Int := 4000)
    (auto_play_animation_duration : Int := 800)
    (auto_play_curve : AnimateToCurve := AnimateToCurve.FAST_OUT_SLOW_IN)
    (enlarge_center_page : Bool := false)
    (enlarge_strategy : EnlargeStrategy := EnlargeStrategy.SCALE)
    (enlarge_factor : ℚ := 3 / 10)
    (page_snapping : Bool := true)
    (scroll_direction : ScrollDirection := ScrollDirection.HORIZONTAL)
    (pause_auto_play_on_touch : Bool := true)
    (pause_auto_play_on_manual_navigate : Bool := true)
    (pause_auto_play_in_finite_scroll : Bool := false)
    (disable_center : Bool := false)
    (pad_ends : Bool := true)
    (clip_behavior : ClipBehavior := ClipBehavior.HARD_EDGE)
    (on_change : Option Nat := Option.none)
    (on_scrolled : Option Nat := Option.none) : Carousel α :=
  let c := (blank α).set_controls controls
  let c := c.set_height height
  let c := c.set_aspect_ratio aspect_ratio
  let c := c.set_viewport_fraction viewport_fraction
  let c := c.set_initial_page initial_page
  let c := c.set_disablegesture disablegesture
  let c := c.set_enable_indicator enable_indicator
  let c := c.set_indicatorwidth indicatorwidth
  let c := c.set_indicator_active_color indicator_active_color
  let c := c.set_indicator_inactive_color indicator_inactive_color
  let c := c.set_build_on_demand build_on_demand
  let c := c.set_enable_infinite_scroll enable_infinite_scroll
  let c := c.set_animate_to_closest animate_to_closest
  let c := c.set_reverse reverse
  let c := c.set_auto_play auto_play
  let c := c.set_auto_play_interval auto_play_interval
  let c := c.set_auto_play_animation_duration auto_play_animation_duration
  let c := c.set_auto_play_curve auto_play_curve
  let c := c.set_enlarge_center_page enlarge_center_page
  let c := c.set_enlarge_strategy enlarge_strategy
  let c := c.set_enlarge_factor enlarge_factor
  let c := c.set_page_snapping page_snapping
  let c := c.set_scroll_direction scroll_direction
  let c := c.set_pause_auto_play_on_touch pause_auto_play_on_touch
  let c := c.set_pause_auto_play_on_manual_navigate pause_auto_play_on_manual_navigate
  let c := c.set_pause_auto_play_in_finite_scroll pause_auto_play_in_finite_scroll
  let c := c.set_disable_center disable_center
  let c := c.set_pad_ends pad_ends
  let c := c.set_clip_behavior clip_behavior
  let c := c.set_on_change on_change
  let c := c.set_on_scrolled on_scrolled
  { c with cmdCounter := 0 }

/-- `self._next_cmd()`: increments the counter and returns its new value,
paired with the updated instance (explicit state passing for the Python
mutation). -/
def next_cmd (c : Carousel α) : Nat × Carousel α :=
  (c.cmdCounter + 1, { c with cmdCounter := c.cmdCounter + 1 })

/-- `animate_to_page(index, duration, curve)`: writes
`f"{index}:{duration}:{curve_id}:{self._next_cmd()}"` under `"__animateTo"`
(`curve_id = curve.value`; the typed embedding makes the `isinstance` branch
always taken). The trailing `self.update()` is a flush to the host renderer and
changes no state modelled here. -/
def animate_to_page (c : Carousel α) (index : Int) (duration : Int := 800)
    (curve : AnimateToCurve := AnimateToCurve.FAST_OUT_SLOW_IN) : Carousel α :=
  let t := c.next_cmd
  t.2.set_attr "__animateTo"
    (PyVal.str ((pyIntStr index ++ ":" ++ pyIntStr duration ++ ":" ++
      curve.value ++ ":") ++ pyNatStr t.1))

/-- `next_page(duration, curve)`: writes
`f"__next:{duration}:{curve_id}:{self._next_cmd()}"` under `"__animateTo"`. -/
def next_page (c : Carousel α) (duration : Int := 300)
    (curve : AnimateToCurve := AnimateToCurve.FAST_OUT_SLOW_IN) : Carousel α :=
  let t := c.next_cmd
  t.2.set_attr "__animateTo"
    (PyVal.str (("__next:" ++ pyIntStr duration ++ ":" ++ curve.value ++ ":") ++
      pyNatStr t.1))

/-- `previous_page(duration, curve)`: writes
`f"__prev:{duration}:{curve_id}:{self._next_cmd()}"` under `"__animateTo"`. -/
def previous_page (c : Carousel α) (duration : Int := 300)
    (curve : AnimateToCurve := AnimateToCurve.FAST_OUT_SLOW_IN) : Carousel α :=
  let t := c.next_cmd
  t.2.set_attr "__animateTo"
    (PyVal.str (("__prev:" ++ pyIntStr duration ++ ":" ++ curve.value ++ ":") ++
      pyNatStr t.1))

/-- `jump_to_page(index)`: writes `f"__jump:{index}:none:{self._next_cmd()}"`
under `"__animateTo"`. -/
def jump_to_page (c : Carousel α) (index : Int) : Carousel α :=
  let t := c.next_cmd
  t.2.set_attr "__animateTo"
    (PyVal.str (("__jump:" ++ pyIntStr index ++ ":none:") ++ pyNatStr t.1))

end Carousel

/-- One call to one of the four navigation methods, with its arguments. -/
inductive NavOp where
  | animate (index duration : Int) (curve : AnimateToCurve)
  | next (duration : Int) (curve : AnimateToCurve)
  | prev (duration : Int) (curve : AnimateToCurve)
  | jump (index : Int)

/-- Dispatch a `NavOp` to the corresponding source method. -/
def Carousel.applyNav {α : Type} (c : Carousel α) : NavOp → Carousel α
  | NavOp.animate i d cv => c.animate_to_page i d cv
  | NavOp.next d cv => c.next_page d cv
  | NavOp.prev d cv => c.previous_page d cv
  | NavOp.jump i => c.jump_to_page i

/-- The command string an operation produces, minus the trailing token
(determined by the call's arguments alone, per the f-strings in the source). -/
def NavOp.cmdBody : NavOp → String
  | NavOp.animate i d cv => pyIntStr i ++ ":" ++ pyIntStr d ++ ":" ++ cv.value ++ ":"
  | NavOp.next d cv => "__next:" ++ pyIntStr d ++ ":" ++ cv.value ++ ":"
  | NavOp.prev d cv => "__prev:" ++ pyIntStr d ++ ":" ++ cv.value ++ ":"
  | NavOp.jump i => "__jump:" ++ pyIntStr i ++ ":none:"

/-! Helper lemmas about the Python-builtin models. -/

theorem toNat_ofNat_digit (r : Nat) (h : r < 10) :
    (Char.ofNat (48 + r)).toNat = 48 + r := by
  interval_cases r <;> decide

theorem isDigitChar_ofNat_digit (r : Nat) (h : r < 10) :
    isDigitChar (Char.ofNat (48 + r)) = true := by
  interval_cases r <;> decide

theorem readNatDigits_append_digit (l : List Char) (c : Char) :
    readNatDigits (l ++ [c]) = 10 * readNatDigits l + (c.toNat - 48) := by
  unfold readNatDigits
  rw [List.foldl_append]
  rfl

theorem readNatDigits_decDigitsAux :
    ∀ fuel n : Nat, n ≤ fuel → readNatDigits (decDigitsAux fuel n) = n := by
  intro fuel
  induction fuel with
  | zero =>
    intro n h
    have : n = 0 := Nat.le_zero.mp h
    subst this
    rfl
  | succ f ih =>
    intro n h
    by_cases hn : n = 0
    · subst hn; rfl
    · have hlt : n / 10 < n := Nat.div_lt_self (Nat.pos_of_ne_zero hn) (by omega)
      have hrec := ih (n / 10) (by omega)
      simp only [decDigitsAux, hn, if_false]
      rw [readNatDigits_append_digit, hrec,
        toNat_ofNat_digit (n % 10) (Nat.mod_lt _ (by omega))]
      omega

theorem decDigitsAux_all_digits :
    ∀ fuel n : Nat, (decDigitsAux fuel n).all isDigitChar = true := by
  intro fuel
  induction fuel with
  | zero => intro n; rfl
  | succ f ih =>
    intro n
    by_cases hn : n = 0
    · subst hn; rfl
    · simp only [decDigitsAux, hn, if_false, List.all_append, ih,
        Bool.true_and, List.all_cons, List.all_nil, Bool.and_true]
      exact isDigitChar_ofNat_digit (n % 10) (Nat.mod_lt _ (by omega))

theorem pyNatStr_data_all_digits (n : Nat) :
    (pyNatStr n).data.all isDigitChar = true := by
  by_cases hn : n = 0
  · subst hn; rfl
  · simp only [pyNatStr, hn, if_false]
    exact decDigitsAux_all_digits n n

theorem pyNatStr_data_ne_nil (n : Nat) : (pyNatStr n).data ≠ [] := by
  by_cases hn : n = 0
  · subst hn; simp [pyNatStr]
  · simp only [pyNatStr, hn, if_false]
    show decDigitsAux n n ≠ []
    cases n with
    | zero => omega
    | succ m =>
      simp only [decDigitsAux, Nat.succ_ne_zero, if_false]
      simp

theorem readNatDigits_pyNatStr (n : Nat) :
    readNatDigits (pyNatStr n).data = n := by
  by_cases hn : n = 0
  · subst hn; rfl
  · simp only [pyNatStr, hn, if_false]
    exact readNatDigits_decDigitsAux n n (Nat.le_refl n)

theorem pyNatStr_injective : Function.Injective pyNatStr := by
  intro m n h
  have := congrArg (fun s => readNatDigits s.data) h
  simpa [readNatDigits_pyNatStr] using this

theorem isSpaceChar_eq_false_of_digit {c : Char} (h : isDigitChar c = true) :
    isSpaceChar c = false := by
  unfold isDigitChar at h
  unfold isSpaceChar
  simp only [decide_eq_true_eq] at h
  simp only [decide_eq_false_iff_not]
  omega

theorem dropWhile_isSpace_eq_self (l : List Char)
    (h : ∀ c ∈ l, isSpaceChar c = false) : l.dropWhile isSpaceChar = l := by
  cases l with
  | nil => rfl
  | cons c cs =>
    rw [List.dropWhile_cons, h c (List.mem_cons_self c cs)]
    simp

theorem stripSpaces_eq_self (l : List Char)
    (h : ∀ c ∈ l, isSpaceChar c = false) : stripSpaces l = l := by
  unfold stripSpaces
  rw [dropWhile_isSpace_eq_self l h,
    dropWhile_isSpace_eq_self l.reverse (fun c hc => h c (List.mem_reverse.mp hc)),
    List.reverse_reverse]

theorem stripSpaces_pyNatStr (n : Nat) :
    stripSpaces (pyNatStr n).data = (pyNatStr n).data := by
  refine stripSpaces_eq_self _ (fun c hc => isSpaceChar_eq_false_of_digit ?_)
  exact List.all_eq_true.mp (pyNatStr_data_all_digits n) c hc

theorem digit_ne_plus {c : Char} (h : isDigitChar c = true) : ¬(c = '+') := by
  intro he
  subst he
  exact absurd h (by decide)

theorem digit_ne_minus {c : Char} (h : isDigitChar c = true) : ¬(c = '-') := by
  intro he
  subst he
  exact absurd h (by decide)

theorem pyInt?_pyNatStr (n : Nat) :
    pyInt? (String.mk (pyNatStr n).data) = some (n : Int) := by
  unfold pyInt?
  show (match stripSpaces (pyNatStr n).data with
    | [] => Option.none
    | c :: cs =>
      if c = '+' then
        if cs ≠ [] ∧ cs.all isDigitChar then some (readNatDigits cs) else Option.none
      else if c = '-' then
        if cs ≠ [] ∧ cs.all isDigitChar then some (-(readNatDigits cs : Int))
        else Option.none
      else
        if (c :: cs).all isDigitChar then some (readNatDigits (c :: cs))
        else Option.none) = some (n : Int)
  rw [stripSpaces_pyNatStr]
  rcases hd : (pyNatStr n).data with _ | ⟨c, cs⟩
  · exact absurd hd (pyNatStr_data_ne_nil n)
  · have hall : (c :: cs).all isDigitChar = true := by
      rw [← hd]; exact pyNatStr_data_all_digits n
    have hc : isDigitChar c = true := by
      simp only [List.all_cons, Bool.and_eq_true] at hall
      exact hall.1
    simp only [digit_ne_plus hc, if_false, digit_ne_minus hc, hall, if_true]
    rw [← hd, readNatDigits_pyNatStr]

theorem pyInt?_pyIntStr (i : Int) : pyInt? (pyIntStr i) = some i := by
  by_cases hi : i < 0
  · unfold pyIntStr
    rw [if_pos hi]
    unfold pyInt?
    have hdata : ("-" ++ pyNatStr i.natAbs).data = '-' :: (pyNatStr i.natAbs).data := by
      rw [String.data_append]; rfl
    rw [hdata]
    have hstrip : stripSpaces ('-' :: (pyNatStr i.natAbs).data) =
        '-' :: (pyNatStr i.natAbs).data := by
      refine stripSpaces_eq_self _ (fun c hc => ?_)
      rcases List.mem_cons.mp hc with h | h
      · subst h; decide
      · exact isSpaceChar_eq_false_of_digit
          (List.all_eq_true.mp (pyNatStr_data_all_digits i.natAbs) c h)
    rw [hstrip]
    simp only [reduceCtorEq, reduceIte, Char.reduceEq]
    rw [if_pos ⟨pyNatStr_data_ne_nil i.natAbs, pyNatStr_data_all_digits i.natAbs⟩]
    rw [readNatDigits_pyNatStr]
    congr 1
    omega
  · unfold pyIntStr
    rw [if_neg hi]
    have := pyInt?_pyNatStr i.toNat
    have heq : String.mk (pyNatStr i.toNat).data = pyNatStr i.toNat := rfl
    rw [heq] at this
    rw [this, Int.toNat_of_nonneg (by omega)]

theorem splitOnChar_of_not_mem (sep : Char) (l : List Char) (h : sep ∉ l) :
    splitOnChar sep l = [l] := by
  induction l with
  | nil => rfl
  | cons c cs ih =>
    have hc : ¬(c = sep) := fun he => h (he ▸ List.mem_cons_self c cs)
    have ht : sep ∉ cs := fun hm => h (List.mem_cons_of_mem c hm)
    rw [splitOnChar, if_neg hc, ih ht]
    rfl

theorem splitOnChar_append (sep : Char) (a r : List Char) (h : sep ∉ a) :
    splitOnChar sep (a ++ sep :: r) = a :: splitOnChar sep r := by
  induction a with
  | nil =>
    show splitOnChar sep (sep :: r) = [] :: splitOnChar sep r
    rw [splitOnChar, if_pos rfl]
  | cons c cs ih =>
    have hc : ¬(c = sep) := fun he => h (he ▸ List.mem_cons_self c cs)
    have ht : sep ∉ cs := fun hm => h (List.mem_cons_of_mem c hm)
    show splitOnChar sep (c :: (cs ++ sep :: r)) = (c :: cs) :: splitOnChar sep r
    rw [splitOnChar, if_neg hc, ih ht]
    rfl

theorem colon_not_mem_pyIntStr (i : Int) : ':' ∉ (pyIntStr i).data := by
  intro hm
  have hsp : ∀ c ∈ (pyNatStr i.natAbs).data, ¬(c = ':') := by
    intro c hc he
    have := List.all_eq_true.mp (pyNatStr_data_all_digits i.natAbs) c hc
    subst he
    exact absurd this (by decide)
  unfold pyIntStr at hm
  by_cases hi : i < 0
  · rw [if_pos hi, String.data_append] at hm
    rcases List.mem_append.mp hm with h | h
    · exact absurd h (by decide)
    · exact hsp ':' h rfl
  · rw [if_neg hi] at hm
    have := List.all_eq_true.mp (pyNatStr_data_all_digits i.toNat) ':' hm
    exact absurd this (by decide)

theorem str_ne_empty_of_data_ne_nil {s : String} (h : s.data ≠ []) : ¬(s = "") :=
  fun he => h (congrArg String.data he)

/-- Data of a change payload assembled as `<first> ++ ":" ++ <second>`. -/
theorem data_colon_append (a r : String) :
    (a ++ ":" ++ r).data = a.data ++ ':' :: r.data := by
  rw [String.data_append, String.data_append]
  show a.data ++ [':'] ++ r.data = a.data ++ ':' :: r.data
  rw [List.append_assoc]
  rfl

/-- `changeRaw` keeps a payload that contains a colon (it is non-empty). -/
theorem changeRaw_colon_append (a r : String) :
    changeRaw (some (a ++ ":" ++ r)) = a ++ ":" ++ r := by
  show (if a ++ ":" ++ r = "" then "0:manual" else a ++ ":" ++ r) = a ++ ":" ++ r
  rw [if_neg]
  apply str_ne_empty_of_data_ne_nil
  rw [data_colon_append]
  simp

/-- Reduction of `carouselChangeParse` once the shape of `parts` is known. -/
theorem carouselChangeParse_eq_of_split (data : Option String) (p0 : List Char)
    (rest : List (List Char))
    (h : splitOnChar ':' (changeRaw data).data = p0 :: rest) :
    carouselChangeParse data =
      match pyInt? (String.mk p0) with
      | Option.none => Option.none
      | some idx =>
        match rest with
        | [] => Option.none
        | p1 :: _ =>
          some ⟨idx, (CarouselPageChangedReason.fromWire? (String.mk p1)).getD
            CarouselPageChangedReason.MANUAL⟩ := by
  unfold carouselChangeParse
  simp only [h]
  cases pyInt? (String.mk p0) with
  | none => rfl
  | some idx => cases rest <;> rfl

/-- Parse of a two-segment payload whose first segment is the rendering of an
integer: the index round-trips and the reason falls back to `MANUAL` exactly
when the token is unrecognized. -/
theorem carouselChangeParse_int_colon (n : Int) (r : String)
    (hr : ':' ∉ r.data) :
    carouselChangeParse (some (pyIntStr n ++ ":" ++ r)) =
      some ⟨n, (CarouselPageChangedReason.fromWire? r).getD
        CarouselPageChangedReason.MANUAL⟩ := by
  rw [carouselChangeParse_eq_of_split (some (pyIntStr n ++ ":" ++ r))
    (pyIntStr n).data [r.data]
    (by rw [changeRaw_colon_append, data_colon_append,
      splitOnChar_append ':' (pyIntStr n).data r.data (colon_not_mem_pyIntStr n),
      splitOnChar_of_not_mem ':' r.data hr])]
  have h3 : pyInt? (String.mk (pyIntStr n).data) = some n := pyInt?_pyIntStr n
  rw [h3]

/-- A non-empty payload without any colon raises (`parts` has no second
element, so `parts[1]` raises `IndexError`, which the `except ValueError`
clause does not catch). -/
theorem carouselChangeParse_no_colon (s : String) (hs : ¬(s = ""))
    (hc : ':' ∉ s.data) : carouselChangeParse (some s) = Option.none := by
  have hraw : changeRaw (some s) = s := by
    show (if s = "" then "0:manual" else s) = s
    rw [if_neg hs]
  rw [carouselChangeParse_eq_of_split (some s) s.data []
    (by rw [hraw, splitOnChar_of_not_mem ':' s.data hc])]
  cases pyInt? (String.mk s.data) <;> rfl

/-- A payload whose first colon-segment is not a Python integer raises
(`int(parts[0])` raises `ValueError` before any reason handling). -/
theorem carouselChangeParse_bad_index (a r : String) (ha : ':' ∉ a.data)
    (hi : pyInt? a = Option.none) :
    carouselChangeParse (some (a ++ ":" ++ r)) = Option.none := by
  rw [carouselChangeParse_eq_of_split (some (a ++ ":" ++ r)) a.data
    (splitOnChar ':' r.data)
    (by rw [changeRaw_colon_append, data_colon_append,
      splitOnChar_append ':' a.data r.data ha])]
  have hi' : pyInt? (String.mk a.data) = Option.none := hi
  rw [hi']

/-! Helper lemmas about the attribute store and the navigation methods. -/

theorem getAttr_of_absent (st : String → Option PyVal) (name dt : String)
    (dv : PyVal) (h : st (lowerKey name) = Option.none) :
    getAttr st name dt dv = GetResult.ok dv := by
  unfold getAttr
  rw [h]

theorem append_token_ne {p t1 t2 : String} (h : ¬(t1 = t2)) :
    ¬(p ++ t1 = p ++ t2) := by
  intro he
  apply h
  have hd := congrArg String.data he
  rw [String.data_append, String.data_append] at hd
  exact String.ext (List.append_cancel_left hd)

theorem pyNatStr_succ_ne {m n : Nat} (h : ¬(m = n)) :
    ¬(pyNatStr m = pyNatStr n) :=
  fun he => h (pyNatStr_injective he)

theorem applyNav_cmdCounter {α : Type} (c : Carousel α) (op : NavOp) :
    (c.applyNav op).cmdCounter = c.cmdCounter + 1 := by
  cases op <;> rfl

theorem applyNav_attrs {α : Type} (c : Carousel α) (op : NavOp) :
    (c.applyNav op).attrs "__animateto" =
      some (PyVal.str (op.cmdBody ++ pyNatStr (c.cmdCounter + 1))) := by
  cases op <;> rfl

theorem foldl_applyNav_cmdCounter {α : Type} (c : Carousel α) (ops : List NavOp) :
    (ops.foldl Carousel.applyNav c).cmdCounter = c.cmdCounter + ops.length := by
  induction ops generalizing c with
  | nil => rfl
  | cons op rest ih =>
    rw [List.foldl_cons, ih, applyNav_cmdCounter, List.length_cons]
    omega

end FletCarousel

open FletCarousel

/-! Claim theorems. -/

/-- C1 (counterexample): constructing events from the claim's own example
payloads raises. `"abc:timed"` raises `ValueError` in `int("abc")` instead of
degrading to index 0 / reason MANUAL; `"3"` raises `IndexError` in `parts[1]`
(not caught by `except ValueError`); the non-numeric scroll payload `"3x"`
raises `ValueError` in `float("3x")` instead of degrading to 0.0. -/
theorem C1_malformed_payload_raises :
    carouselChangeParse (some "abc:timed") = Option.none ∧
    ¬(carouselChangeParse (some "abc:timed") =
      some ⟨0, CarouselPageChangedReason.MANUAL⟩) ∧
    carouselChangeParse (some "3") = Option.none ∧
    ¬(carouselChangeParse (some "3") =
      some ⟨0, CarouselPageChangedReason.MANUAL⟩) ∧
    carouselScrolledValue (some "3x") = Option.none ∧
    ¬(carouselScrolledValue (some "3x") = some 0) := by
  refine ⟨by decide, by decide, by decide, by decide, by decide, ?_⟩
  intro h
  exact absurd ((by decide : carouselScrolledValue (some "3x") = Option.none) ▸ h)
    (by exact Option.noConfusion)

/-- C1 (amended): event construction degrades only in these cases — a missing
or empty change payload yields index 0 / reason MANUAL, a two-segment payload
with a well-formed integer first segment never raises and maps an unrecognized
reason token to MANUAL, and a missing or empty scroll payload yields 0.0. A
non-empty change payload without a colon, or one whose first colon-segment is
not an integer, raises; so does a non-numeric scroll payload. -/
theorem C1_event_degradation_amended :
    (carouselChangeParse Option.none =
      some ⟨0, CarouselPageChangedReason.MANUAL⟩) ∧
    (carouselChangeParse (some "") =
      some ⟨0, CarouselPageChangedReason.MANUAL⟩) ∧
    (carouselScrolledValue Option.none = some 0) ∧
    (carouselScrolledValue (some "") = some 0) ∧
    (∀ (n : Int) (r : String), ':' ∉ r.data →
      carouselChangeParse (some (pyIntStr n ++ ":" ++ r)) =
        some ⟨n, (CarouselPageChangedReason.fromWire? r).getD
          CarouselPageChangedReason.MANUAL⟩) ∧
    (∀ s : String, ¬(s = "") → ':' ∉ s.data →
      carouselChangeParse (some s) = Option.none) ∧
    (∀ a r : String, ':' ∉ a.data → pyInt? a = Option.none →
      carouselChangeParse (some (a ++ ":" ++ r)) = Option.none) :=
  ⟨by decide, by decide, rfl, rfl, carouselChangeParse_int_colon,
    carouselChangeParse_no_colon, carouselChangeParse_bad_index⟩

/-- C1 (witness): the amended statement applied at concrete payloads
`"2:bogus"` (degrades to MANUAL), `"3"` (raises) and `"abc:timed"` (raises). -/
theorem C1_event_degradation_amended_witness :
    carouselChangeParse (some (pyIntStr 2 ++ ":" ++ "bogus")) =
      some ⟨2, CarouselPageChangedReason.MANUAL⟩ ∧
    carouselChangeParse (some "3") = Option.none ∧
    carouselChangeParse (some ("abc" ++ ":" ++ "timed")) = Option.none := by
  refine ⟨?_, ?_, ?_⟩
  · rw [C1_event_degradation_amended.2.2.2.2.1 2 "bogus" (by decide)]
    rfl
  · exact C1_event_degradation_amended.2.2.2.2.2.1 "3" (by decide) (by decide)
  · exact C1_event_degradation_amended.2.2.2.2.2.2 "abc" "timed" (by decide)
      (by decide)

/-- C2 (code bug): the color getters pass the wrong `data_type` to the
attribute store (`"bool"` for `indicator_active_color`, `"int"` for
`indicator_inactive_color`, both annotated `-> ColorValue`). Setting the color
string `"red"` and reading it back returns the boolean `False` for the active
color — not `"red"` — and raises `ValueError` (`int("red")`) for the inactive
color, so `get(set(v)) == v` fails for string color values. -/
theorem C2_color_option_roundtrip_bug :
    ((Carousel.blank Unit).set_indicator_active_color
        (PyVal.str "red")).indicator_active_color =
      GetResult.ok (PyVal.bool false) ∧
    ¬(((Carousel.blank Unit).set_indicator_active_color
        (PyVal.str "red")).indicator_active_color =
      GetResult.ok (PyVal.str "red")) ∧
    ((Carousel.blank Unit).set_indicator_inactive_color
        (PyVal.str "red")).indicator_inactive_color = GetResult.raise := by
  refine ⟨by decide, by decide, by decide⟩

/-- C3: parsing `"3:timed"` yields index 3 / reason TIMED, `"2:bogus"` yields
index 2 / reason MANUAL (unrecognized token falls back), and `""` yields
index 0 / reason MANUAL. -/
theorem C3_change_payload_examples :
    carouselChangeParse (some "3:timed") =
      some ⟨3, CarouselPageChangedReason.TIMED⟩ ∧
    carouselChangeParse (some "2:bogus") =
      some ⟨2, CarouselPageChangedReason.MANUAL⟩ ∧
    carouselChangeParse (some "") =
      some ⟨0, CarouselPageChangedReason.MANUAL⟩ := by
  refine ⟨by decide, by decide, by decide⟩

/-- C4: for every index, duration and curve, `animate_to_page` writes
`"<index>:<duration>:<curve wire string>:<token>"` under `__animateTo`
(key stored lower-cased), with token the incremented counter; in particular a
fresh instance's `animate_to_page(2, 500, EASE_IN)` writes
`"2:500:easeIn:1"`. -/
theorem C4_animate_to_page_command {α : Type} (c : Carousel α)
    (index duration : Int) (curve : AnimateToCurve) :
    (c.animate_to_page index duration curve).attrs "__animateto" =
      some (PyVal.str ((pyIntStr index ++ ":" ++ pyIntStr duration ++ ":" ++
        curve.value ++ ":") ++ pyNatStr (c.cmdCounter + 1))) ∧
    ((Carousel.init (α := Unit) (some [])).animate_to_page 2 500
        AnimateToCurve.EASE_IN).attrs "__animateto" =
      some (PyVal.str "2:500:easeIn:1") :=
  ⟨rfl, by decide⟩

/-- C5: for every index, `jump_to_page` writes
`"__jump:<index>:none:<token>"` under `__animateTo`; in particular a fresh
instance's `jump_to_page(5)` writes `"__jump:5:none:1"`. -/
theorem C5_jump_to_page_command {α : Type} (c : Carousel α) (index : Int) :
    (c.jump_to_page index).attrs "__animateto" =
      some (PyVal.str (("__jump:" ++ pyIntStr index ++ ":none:") ++
        pyNatStr (c.cmdCounter + 1))) ∧
    ((Carousel.init (α := Unit) (some [])).jump_to_page 5).attrs "__animateto" =
      some (PyVal.str "__jump:5:none:1") :=
  ⟨rfl, by decide⟩

/-- C6: two immediate `next_page()` calls with identical arguments write
command strings sharing the prefix `"__next:<duration>:<curve>:"` and carrying
successive counter tokens, and the two full strings are distinct. -/
theorem C6_next_page_twice_distinct {α : Type} (c : Carousel α)
    (duration : Int) (curve : AnimateToCurve) :
    (c.next_page duration curve).attrs "__animateto" =
      some (PyVal.str (("__next:" ++ pyIntStr duration ++ ":" ++ curve.value ++
        ":") ++ pyNatStr (c.cmdCounter + 1))) ∧
    ((c.next_page duration curve).next_page duration curve).attrs
        "__animateto" =
      some (PyVal.str (("__next:" ++ pyIntStr duration ++ ":" ++ curve.value ++
        ":") ++ pyNatStr (c.cmdCounter + 2))) ∧
    ¬(("__next:" ++ pyIntStr duration ++ ":" ++ curve.value ++ ":") ++
        pyNatStr (c.cmdCounter + 1) =
      ("__next:" ++ pyIntStr duration ++ ":" ++ curve.value ++ ":") ++
        pyNatStr (c.cmdCounter + 2)) :=
  ⟨rfl, rfl, append_token_ne (pyNatStr_succ_ne (by omega))⟩

/-- C7: every `_get_attr`-backed option getter returns its documented default
when its attribute is unset (hypotheses per option), and the four shadow-field
enum getters return their documented defaults on a freshly constructed
instance. -/
theorem C7_unset_option_defaults (c : Carousel Unit) :
    (c.attrs "height" = Option.none → c.height = GetResult.ok PyVal.none) ∧
    (c.attrs "aspectratio" = Option.none →
      c.aspect_ratio = GetResult.ok (PyVal.float (16 / 9))) ∧
    (c.attrs "viewportfraction" = Option.none →
      c.viewport_fraction = GetResult.ok (PyVal.float (8 / 10))) ∧
    (c.attrs "initialpage" = Option.none →
      c.initial_page = GetResult.ok (PyVal.int 0)) ∧
    (c.attrs "enableinfinitescroll" = Option.none →
      c.enable_infinite_scroll = GetResult.ok (PyVal.bool true)) ∧
    (c.attrs "disablegesture" = Option.none →
      c.disablegesture = GetResult.ok (PyVal.bool false)) ∧
    (c.attrs "enableindicator" = Option.none →
      c.enable_indicator = GetResult.ok (PyVal.bool true)) ∧
    (c.attrs "indicatorwidth" = Option.none →
      c.indicatorwidth = GetResult.ok PyVal.none) ∧
    (c.attrs "indicatorinactivecolor" = Option.none →
      c.indicator_inactive_color = GetResult.ok PyVal.none) ∧
    (c.attrs "indicatoractivecolor" = Option.none →
      c.indicator_active_color = GetResult.ok PyVal.none) ∧
    (c.attrs "build_on_demand" = Option.none →
      c.build_on_demand = GetResult.ok (PyVal.bool false)) ∧
    (c.attrs "animatetoclosest" = Option.none →
      c.animate_to_closest = GetResult.ok (PyVal.bool true)) ∧
    (c.attrs "reverse" = Option.none →
      c.reverse = GetResult.ok (PyVal.bool false)) ∧
    (c.attrs "autoplay" = Option.none →
      c.auto_play = GetResult.ok (PyVal.bool false)) ∧
    (c.attrs "autoplayinterval" = Option.none →
      c.auto_play_interval = GetResult.ok (PyVal.int 4000)) ∧
    (c.attrs "autoplayanimationduration" = Option.none →
      c.auto_play_animation_duration = GetResult.ok (PyVal.int 800)) ∧
    (c.attrs "enlargecenterpage" = Option.none →
      c.enlarge_center_page = GetResult.ok (PyVal.bool false)) ∧
    (c.attrs "enlargefactor" = Option.none →
      c.enlarge_factor = GetResult.ok (PyVal.float (3 / 10))) ∧
    (c.attrs "pagesnapping" = Option.none →
      c.page_snapping = GetResult.ok (PyVal.bool true)) ∧
    (c.attrs "pauseautoplayontouch" = Option.none →
      c.pause_auto_play_on_touch = GetResult.ok (PyVal.bool true)) ∧
    (c.attrs "pauseautoplayonmanualnavigate" = Option.none →
      c.pause_auto_play_on_manual_navigate = GetResult.ok (PyVal.bool true)) ∧
    (c.attrs "pauseautoplayinfinitescroll" = Option.none →
      c.pause_auto_play_in_finite_scroll = GetResult.ok (PyVal.bool false)) ∧
    (c.attrs "disablecenter" = Option.none →
      c.disable_center = GetResult.ok (PyVal.bool false)) ∧
    (c.attrs "padends" = Option.none →
      c.pad_ends = GetResult.ok (PyVal.bool true)) ∧
    ((Carousel.init (α := Unit) (some [])).auto_play_curve =
      AnimateToCurve.FAST_OUT_SLOW_IN) ∧
    ((Carousel.init (α := Unit) (some [])).enlarge_strategy =
      EnlargeStrategy.SCALE) ∧
    ((Carousel.init (α := Unit) (some [])).scroll_direction =
      ScrollDirection.HORIZONTAL) ∧
    ((Carousel.init (α := Unit) (some [])).clip_behavior =
      ClipBehavior.HARD_EDGE) := by
  exact ⟨fun h => getAttr_of_absent c.attrs _ _ _ h,
    fun h => getAttr_of_absent c.attrs _ _ _ h,
    fun h => getAttr_of_absent c.attrs _ _ _ h,
    fun h => getAttr_of_absent c.attrs _ _ _ h,
    fun h => getAttr_of_absent c.attrs _ _ _ h,
    fun h => getAttr_of_absent c.attrs _ _ _ h,
    fun h => getAttr_of_absent c.attrs _ _ _ h,
    fun h => getAttr_of_absent c.attrs _ _ _ h,
    fun h => getAttr_of_absent c.attrs _ _ _ h,
    fun h => getAttr_of_absent c.attrs _ _ _ h,
    fun h => getAttr_of_absent c.attrs _ _ _ h,
    fun h => getAttr_of_absent c.attrs _ _ _ h,
    fun h => getAttr_of_absent c.attrs _ _ _ h,
    fun h => getAttr_of_absent c.attrs _ _ _ h,
    fun h => getAttr_of_absent c.attrs _ _ _ h,
    fun h => getAttr_of_absent c.attrs _ _ _ h,
    fun h => getAttr_of_absent c.attrs _ _ _ h,
    fun h => getAttr_of_absent c.attrs _ _ _ h,
    fun h => getAttr_of_absent c.attrs _ _ _ h,
    fun h => getAttr_of_absent c.attrs _ _ _ h,
    fun h => getAttr_of_absent c.attrs _ _ _ h,
    fun h => getAttr_of_absent c.attrs _ _ _ h,
    fun h => getAttr_of_absent c.attrs _ _ _ h,
    fun h => getAttr_of_absent c.attrs _ _ _ h,
    rfl, rfl, rfl, rfl⟩

/-- C7 (witness): the unset-default statement applied at an instance whose
attribute store is empty, every hypothesis discharged by `rfl`. -/
theorem C7_unset_option_defaults_witness :
    (Carousel.blank Unit).height = GetResult.ok PyVal.none ∧
    (Carousel.blank Unit).aspect_ratio = GetResult.ok (PyVal.float (16 / 9)) ∧
    (Carousel.blank Unit).viewport_fraction =
      GetResult.ok (PyVal.float (8 / 10)) ∧
    (Carousel.blank Unit).initial_page = GetResult.ok (PyVal.int 0) ∧
    (Carousel.blank Unit).enable_infinite_scroll =
      GetResult.ok (PyVal.bool true) ∧
    (Carousel.blank Unit).disablegesture = GetResult.ok (PyVal.bool false) ∧
    (Carousel.blank Unit).enable_indicator = GetResult.ok (PyVal.bool true) ∧
    (Carousel.blank Unit).indicatorwidth = GetResult.ok PyVal.none ∧
    (Carousel.blank Unit).indicator_inactive_color =
      GetResult.ok PyVal.none ∧
    (Carousel.blank Unit).indicator_active_color = GetResult.ok PyVal.none ∧
    (Carousel.blank Unit).build_on_demand = GetResult.ok (PyVal.bool false) ∧
    (Carousel.blank Unit).animate_to_closest = GetResult.ok (PyVal.bool true) ∧
    (Carousel.blank Unit).reverse = GetResult.ok (PyVal.bool false) ∧
    (Carousel.blank Unit).auto_play = GetResult.ok (PyVal.bool false) ∧
    (Carousel.blank Unit).auto_play_interval = GetResult.ok (PyVal.int 4000) ∧
    (Carousel.blank Unit).auto_play_animation_duration =
      GetResult.ok (PyVal.int 800) ∧
    (Carousel.blank Unit).enlarge_center_page =
      GetResult.ok (PyVal.bool false) ∧
    (Carousel.blank Unit).enlarge_factor = GetResult.ok (PyVal.float (3 / 10)) ∧
    (Carousel.blank Unit).page_snapping = GetResult.ok (PyVal.bool true) ∧
    (Carousel.blank Unit).pause_auto_play_on_touch =
      GetResult.ok (PyVal.bool true) ∧
    (Carousel.blank Unit).pause_auto_play_on_manual_navigate =
      GetResult.ok (PyVal.bool true) ∧
    (Carousel.blank Unit).pause_auto_play_in_finite_scroll =
      GetResult.ok (PyVal.bool false) ∧
    (Carousel.blank Unit).disable_center = GetResult.ok (PyVal.bool false) ∧
    (Carousel.blank Unit).pad_ends = GetResult.ok (PyVal.bool true) := by
  have h := C7_unset_option_defaults (Carousel.blank Unit)
  exact ⟨h.1 rfl, h.2.1 rfl, h.2.2.1 rfl, h.2.2.2.1 rfl, h.2.2.2.2.1 rfl,
    h.2.2.2.2.2.1 rfl, h.2.2.2.2.2.2.1 rfl, h.2.2.2.2.2.2.2.1 rfl,
    h.2.2.2.2.2.2.2.2.1 rfl, h.2.2.2.2.2.2.2.2.2.1 rfl,
    h.2.2.2.2.2.2.2.2.2.2.1 rfl, h.2.2.2.2.2.2.2.2.2.2.2.1 rfl,
    h.2.2.2.2.2.2.2.2.2.2.2.2.1 rfl, h.2.2.2.2.2.2.2.2.2.2.2.2.2.1 rfl,
    h.2.2.2.2.2.2.2.2.2.2.2.2.2.2.1 rfl,
    h.2.2.2.2.2.2.2.2.2.2.2.2.2.2.2.1 rfl,
    h.2.2.2.2.2.2.2.2.2.2.2.2.2.2.2.2.1 rfl,
    h.2.2.2.2.2.2.2.2.2.2.2.2.2.2.2.2.2.1 rfl,
    h.2.2.2.2.2.2.2.2.2.2.2.2.2.2.2.2.2.2.1 rfl,
    h.2.2.2.2.2.2.2.2.2.2.2.2.2.2.2.2.2.2.2.1 rfl,
    h.2.2.2.2.2.2.2.2.2.2.2.2.2.2.2.2.2.2.2.2.1 rfl,
    h.2.2.2.2.2.2.2.2.2.2.2.2.2.2.2.2.2.2.2.2.2.1 rfl,
    h.2.2.2.2.2.2.2.2.2.2.2.2.2.2.2.2.2.2.2.2.2.2.1 rfl,
    h.2.2.2.2.2.2.2.2.2.2.2.2.2.2.2.2.2.2.2.2.2.2.2.1 rfl⟩

/-- C8: handler registration is replace-on-set — after any sequence of
assignments, the handler a delivered event reaches and the property getter both
equal the last assigned value, for `on_change` and `on_scrolled` alike; in
particular assigning `None` last deregisters (`h = none`). -/
theorem C8_handler_replace_on_set {α : Type} (c : Carousel α)
    (hs : List (Option Nat)) (h : Option Nat) :
    ((hs ++ [h]).foldl Carousel.set_on_change c).invokedChangeHandler = h ∧
    ((hs ++ [h]).foldl Carousel.set_on_change c).on_change = h ∧
    ((hs ++ [h]).foldl Carousel.set_on_scrolled c).invokedScrolledHandler = h ∧
    ((hs ++ [h]).foldl Carousel.set_on_scrolled c).on_scrolled = h := by
  simp only [List.foldl_append, List.foldl_cons, List.foldl_nil]
  exact ⟨rfl, rfl, rfl, rfl⟩

/-- C9: the constructor initializes the command counter to 0; every navigation
call increments it by exactly 1; and on a fresh instance the navigation
command issued after `ops` earlier calls (any mix of the four methods) carries
trailing token `|ops| + 1` — the n-th command ever issued carries token n. -/
theorem C9_command_token_sequence {α : Type} :
    (∀ controls : Option (List α), (Carousel.init controls).cmdCounter = 0) ∧
    (∀ (c : Carousel α) (op : NavOp),
      (c.applyNav op).cmdCounter = c.cmdCounter + 1) ∧
    (∀ (controls : Option (List α)) (ops : List NavOp) (op : NavOp),
      ((ops.foldl Carousel.applyNav (Carousel.init controls)).applyNav op).attrs
          "__animateto" =
        some (PyVal.str (op.cmdBody ++ pyNatStr (ops.length + 1)))) := by
  refine ⟨fun controls => rfl, applyNav_cmdCounter,
    fun controls ops op => ?_⟩
  rw [applyNav_attrs, foldl_applyNav_cmdCounter]
  have h0 : (Carousel.init (α := α) controls).cmdCounter = 0 := rfl
  rw [h0, Nat.zero_add]

/-- C10: the `controls` setter turns `None` into `[]`, so after the
constructor and any sequence of assignments the stored child list is a real
list — the getter and `_get_children` return the last assigned list, or `[]`
when the last assignment was `None`, and never `None`. -/
theorem C10_controls_never_none {α : Type} (c : Carousel α)
    (vs : List (Option (List α))) (v : Option (List α))
    (controls0 : Option (List α)) :
    ((vs ++ [v]).foldl Carousel.set_controls c).controlsField =
      some (v.getD []) ∧
    ((vs ++ [v]).foldl Carousel.set_controls c).get_children =
      some (v.getD []) ∧
    ¬(((vs ++ [v]).foldl Carousel.set_controls c).controls = Option.none) ∧
    (Carousel.init controls0).controlsField = some (controls0.getD []) ∧
    (Carousel.init controls0).get_children = some (controls0.getD []) ∧
    ¬((Carousel.init controls0).controls = Option.none) := by
  simp only [List.foldl_append, List.foldl_cons, List.foldl_nil]
  refine ⟨rfl, rfl, ?_, rfl, rfl, ?_⟩
  · intro hn
    exact Option.noConfusion hn
  · intro hn
    have : (Carousel.init (α := α) controls0).controls =
        some (controls0.getD []) := rfl
    rw [this] at hn
    exact Option.noConfusion hn
